import Mathlib

/-!
Verification development for the MIDI Explorer probe core
(EMATech/midiexplorer).

The embedding follows the source files:
- `src/gui/windows/probe.py` : decoding, activity blinking, delta timing,
  history table management (`_add_probe_data`, `_mon_blink`,
  `update_blink_status`, `_update_eox_category`, `_clear_probe_data_table`).
- `src/main.py` : the MIDI reference tables
  (`SYSTEM_EXCLUSIVE_MANUFACTURER_ID`, the universal sysex sub-ID tables).

Python dictionaries become association lists, Python sequence indexing
becomes an `Except`-valued access that mirrors `IndexError`, and the
dynamically typed intermediate values of the sysex label chain become a
small sum type.  Timestamps are rationals.
-/

deriving instance DecidableEq for Except

/-- Runtime errors the Python code can raise while decoding; the decode
functions return `Except PyErr` so that raising is representable. -/
inductive PyErr where
  /-- sequence (tuple) index out of range -/
  | indexError
  /-- subscripting an object that does not support it
      (mido `Message` objects are not subscriptable) -/
  | typeError
  /-- dict bracket lookup on a missing key -/
  | keyError
  /-- attribute access on an object lacking it (e.g. `str.get`) -/
  | attributeError
deriving Repr, DecidableEq

/-- Python `seq[i]` on a tuple or list of bytes: the value, or `IndexError`. -/
def pyIndex (xs : List Nat) (i : Nat) : Except PyErr Nat :=
  match xs.get? i with
  | some v => Except.ok v
  | none => Except.error PyErr.indexError

/-- Python `data[i]` where `data` is the mido `Message` object itself
(not its `data` payload tuple): mido messages do not implement
subscripting, so this raises `TypeError` whatever the index is.
Source: `src/gui/windows/probe.py` line 239 reads `data[next_byte]`. -/
def pyMsgSubscript (_i : Nat) : Except PyErr Nat :=
  Except.error PyErr.typeError

/-- Python `dict.get(k)` on an association list (returns `None` when absent). -/
def dictGet (l : List (Nat × α)) (k : Nat) : Option α :=
  match l with
  | [] => none
  | (k0, v) :: rest => if k = k0 then some v else dictGet rest k

/-- Python `dict[k]` (bracket indexing): the value, or `KeyError`. -/
def dictIndex (l : List (Nat × α)) (k : Nat) : Except PyErr α :=
  match dictGet l k with
  | some v => Except.ok v
  | none => Except.error PyErr.keyError

/-- NOTE_OFF_VELOCITY from `src/main.py` (page 10 of the MIDI spec). -/
def NOTE_OFF_VELOCITY : Nat := 0

/-- US2MS from `src/gui/windows/probe.py` line 26. -/
def US2MS : ℚ := 1000

/-!
The manufacturer-ID tables of `src/main.py`
(`SYSTEM_EXCLUSIVE_MANUFACTURER_ID`, page T-11; imported by the probe as
`midi.constants.SYSTEM_EXCLUSIVE_ID`).  The Python dict maps the key
`0x00` to a nested group dictionary (region byte to manufacturer table)
and every other key to a manufacturer name, so its values are modelled by
the sum type `SyxIdEntry`.
-/

/-- SYSTEM_EXCLUSIVE_MANUFACTURER_ID[0x00][0x00] — the American group of
3-byte IDs. -/
def AMERICAN_GROUP_IDS : List (Nat × String) := [
  (0x01, "Time Warner Interactive"),
  (0x07, "Digital Music Corp."),
  (0x08, "IOTA Systems"),
  (0x09, "New England Digital"),
  (0x0A, "Artisyn"),
  (0x0B, "IVL Technologies"),
  (0x0C, "Southern Music Systems"),
  (0x0D, "Lake Butler Sound Company"),
  (0x0E, "Alesis"),
  (0x10, "DOD Electronics"),
  (0x11, "Studer-Editech"),
  (0x14, "Perfect Fretworks"),
  (0x15, "KAT"),
  (0x16, "Opcode"),
  (0x17, "Rane Corp."),
  (0x18, "Anadi Inc."),
  (0x19, "KMX"),
  (0x1A, "Allen & Heath Brenell"),
  (0x1B, "Peavey Electronics"),
  (0x1C, "360 Systems"),
  (0x1D, "Spectrum Design and Development"),
  (0x1E, "Marquis Music"),
  (0x1F, "Zeta Systems"),
  (0x20, "Axxes"),
  (0x21, "Orban"),
  (0x24, "KTI"),
  (0x25, "Breakaway Technologies"),
  (0x26, "CAE"),
  (0x29, "Rocktron Corp."),
  (0x2A, "PianoDisc"),
  (0x2B, "Cannon Research Group"),
  (0x2D, "Regors Instrument Corp."),
  (0x2E, "Blue Sky Logic"),
  (0x2F, "Encore Electronics"),
  (0x30, "Uptown"),
  (0x31, "Voce"),
  (0x32, "CTI Audio, Inc. (Music. Intel Dev.)"),
  (0x33, "S&S Research"),
  (0x34, "Broderbund Software, Inc."),
  (0x35, "Allen Organ Co."),
  (0x37, "Music Quest"),
  (0x38, "APHEX"),
  (0x39, "Gallien Krueger"),
  (0x3A, "IBM"),
  (0x3C, "Hotz Instruments Technologies"),
  (0x3D, "ETA Lighting"),
  (0x3E, "NSI Corporation"),
  (0x3F, "Ad Lib, Inc."),
  (0x40, "Richmond Sound Design"),
  (0x41, "Microsoft"),
  (0x42, "The Software Toolworks"),
  (0x43, "Niche/RJMG"),
  (0x44, "Intone"),
  (0x47, "GT Electronics/Groove Tubes"),
  (0x49, "Timeline Vista"),
  (0x4A, "Mesa Boogie"),
  (0x4C, "Sequoia Development"),
  (0x4D, "Studio Electrionics"),
  (0x4E, "Euphonix"),
  (0x4F, "InterMIDI"),
  (0x50, "MIDI Solutions"),
  (0x51, "3DO Company"),
  (0x52, "Lightwave Research"),
  (0x53, "Micro-W"),
  (0x54, "Spectral Synthesis"),
  (0x55, "Lone Wolf"),
  (0x56, "Studio Technologies"),
  (0x57, "Peterson EMP"),
  (0x58, "Atari"),
  (0x59, "Marion Systems"),
  (0x5A, "Design Event"),
  (0x5B, "Winjammer Software"),
  (0x5C, "AT&T Bell Labs"),
  (0x5E, "Symetrix"),
  (0x5F, "MIDI the world"),
  (0x60, "Desper Products"),
  (0x61, "Micros ’N MIDI"),
  (0x62, "Accordians Intl"),
  (0x63, "EuPhonics"),
  (0x64, "Musonix"),
  (0x65, "Turtle Beach Systems"),
  (0x66, "Mackie Designs"),
  (0x67, "Compuserve"),
  (0x68, "BES Technologies"),
  (0x69, "QRS Music Rolls"),
  (0x6A, "P G Music"),
  (0x6B, "Sierra Semiconductor"),
  (0x6C, "EpiGraf Audio Visual"),
  (0x6D, "Electronics Deiversified"),
  (0x6E, "Tune 1000"),
  (0x6F, "Advanced Micro Devices"),
  (0x70, "Mediamation"),
  (0x71, "Sabine Music"),
  (0x72, "Woog Labs"),
  (0x73, "Micropolis"),
  (0x74, "Ta Horng Musical Inst."),
  (0x75, "eTek (formerly Forte)"),
  (0x76, "Electrovoice"),
  (0x77, "Midisoft"),
  (0x78, "Q-Sound Labs"),
  (0x79, "Westrex"),
  (0x7A, "NVidia"),
  (0x7B, "ESS Technology"),
  (0x7C, "MediaTrix Peripherals"),
  (0x7D, "Brooktree"),
  (0x7E, "Otari"),
  (0x7F, "Key Electronics"),
  (0x80, "Crystalake Multimedia"),
  (0x81, "Crystal Semiconductor"),
  (0x82, "Rockwell Semiconductor")]

/-- SYSTEM_EXCLUSIVE_MANUFACTURER_ID[0x00][0x20] — the European group of
3-byte IDs. -/
def EUROPEAN_GROUP_IDS : List (Nat × String) := [
  (0x00, "Dream"),
  (0x01, "Strand Lighting"),
  (0x02, "Amek Systems"),
  (0x04, "Böhm Electronic"),
  (0x06, "Trident Audio"),
  (0x07, "Real World Studio"),
  (0x09, "Yes Technology"),
  (0x0A, "Automatica"),
  (0x0B, "Bontempi/Farfisa"),
  (0x0C, "F.B.T. Elettronica"),
  (0x0D, "MidiTemp"),
  (0x0E, "LA Audio (Larking Audio)"),
  (0x0F, "Zero 88 Lighting Limited"),
  (0x10, "Micon Audio Electronics GmbH"),
  (0x11, "Forefront Technology"),
  (0x13, "Kenton Electronics"),
  (0x15, "ADB"),
  (0x16, "Marshall Products"),
  (0x17, "DDA"),
  (0x18, "BSS"),
  (0x19, "MA Lighting Technology"),
  (0x1A, "Fatar"),
  (0x1B, "QSC Audio"),
  (0x1C, "Artisan Classic Organ"),
  (0x1D, "Orla Spa"),
  (0x1E, "Pinnacle Audio"),
  (0x1F, "TC Electronics"),
  (0x20, "Doepfer Musikelektronik"),
  (0x21, "Creative Technology Pte"),
  (0x22, "Minami/Seiyddo"),
  (0x23, "Goldstar"),
  (0x24, "Midisoft s.a.s. di M. Cima"),
  (0x25, "Samick"),
  (0x26, "Penny and Giles"),
  (0x27, "Acorn Computer"),
  (0x28, "LSC Electronics"),
  (0x29, "Novation EMS"),
  (0x2A, "Samkyung Mechatroncis"),
  (0x2B, "Medeli Electronics"),
  (0x2C, "Charlie Lab"),
  (0x2D, "Blue Chip Music Tech"),
  (0x2E, "BBE OH Corp")]

/-- Values of the SYSTEM_EXCLUSIVE_MANUFACTURER_ID dict: the key 0x00
holds the nested group dictionary (region byte to manufacturer table);
every other key holds a manufacturer name. -/
inductive SyxIdEntry where
  | name (s : String)
  | groups (g : List (Nat × List (Nat × String)))
deriving Repr, DecidableEq

/-- SYSTEM_EXCLUSIVE_MANUFACTURER_ID from `src/main.py` (page T-11),
which the probe imports as `midi.constants.SYSTEM_EXCLUSIVE_ID`. -/
def SYSTEM_EXCLUSIVE_MANUFACTURER_ID : List (Nat × SyxIdEntry) :=
  (0x00, SyxIdEntry.groups [(0x00, AMERICAN_GROUP_IDS), (0x20, EUROPEAN_GROUP_IDS)]) ::
  ([
  (0x01, "Sequencial"),
  (0x02, "IDP"),
  (0x03, "Voyetra/Octave-Plateau"),
  (0x04, "Moog"),
  (0x05, "Passport Designs"),
  (0x06, "Lexicon"),
  (0x07, "Kurzweil"),
  (0x08, "Fender"),
  (0x09, "Gulbransen"),
  (0x0A, "AKG Acoustics"),
  (0x0B, "Voyce Music"),
  (0x0C, "Waveframe Corp"),
  (0x0D, "ADA Signal Processors"),
  (0x0E, "Garfield Electronics"),
  (0x0F, "Ensoniq"),
  (0x10, "Oberheim"),
  (0x11, "Apple Computer"),
  (0x12, "Grey Matter Response"),
  (0x13, "Digidesign"),
  (0x14, "Palm Tree Instruments"),
  (0x15, "JLCooper Electronics"),
  (0x16, "Lowrey"),
  (0x17, "Adams-Smith"),
  (0x18, "Emu Systems"),
  (0x19, "Harmony Systems"),
  (0x1A, "ART"),
  (0x1B, "Baldwin"),
  (0x1C, "Eventide"),
  (0x1D, "Inventronics"),
  (0x1F, "Clarity"),
  (0x20, "Passac"),
  (0x21, "SIEL"),
  (0x22, "Synthaxe"),
  (0x24, "Hohner"),
  (0x25, "Twister"),
  (0x26, "Solton"),
  (0x27, "Jellinghaus MS"),
  (0x28, "Southworth Music Systems"),
  (0x29, "PPG"),
  (0x2A, "JEN"),
  (0x2B, "SSL Limited"),
  (0x2C, "Audio Veritrieb"),
  (0x2F, "Elka"),
  (0x30, "Dynacord"),
  (0x31, "Viscount"),
  (0x33, "Clavia Digital Instruments"),
  (0x34, "Audio Architecture"),
  (0x35, "General Music Corp."),
  (0x39, "Soundcraft Electronics"),
  (0x3B, "Wersi"),
  (0x3C, "Avab Electronik Ab"),
  (0x3D, "Digigram"),
  (0x3E, "Waldorf Electronics"),
  (0x3F, "Quasimidi"),
  (0x40, "Kawai"),
  (0x41, "Roland"),
  (0x42, "Korg"),
  (0x43, "Yamaha"),
  (0x44, "Casio"),
  (0x46, "Kamiya Studio"),
  (0x47, "Akai"),
  (0x48, "Japan Victor"),
  (0x49, "Mesosha"),
  (0x4A, "Hoshino Gakki"),
  (0x4B, "Fujitsu Elect"),
  (0x4C, "Sony"),
  (0x4D, "Nisshin Onpa"),
  (0x4E, "TEAC"),
  (0x50, "Matsushita Electric"),
  (0x51, "Fostex"),
  (0x52, "Zoom"),
  (0x53, "Midori Electronics"),
  (0x54, "Matsushita Communication Industrial"),
  (0x55, "Suzuki Musical Inst. Mfg.")
  ].map (fun p => (p.1, SyxIdEntry.name p.2)))

/-!
Universal system exclusive sub-ID tables from `src/main.py`
(pages T-9 and T-10 of the MIDI 1.0 spec).
-/

/-- DEFINED_UNIVERSAL_SYSTEM_EXCLUSIVE_MESSAGES_NON_REAL_TIME_SUB_ID_1
from `src/main.py` (table for manufacturer ID 0x7E). -/
def DEFINED_UNIVERSAL_SYSTEM_EXCLUSIVE_MESSAGES_NON_REAL_TIME_SUB_ID_1 : List (Nat × String) := [
  (0x00, "Unused"),
  (0x01, "Sample Dump Header"),
  (0x02, "Sample Data Packet"),
  (0x03, "Sample Dump Request"),
  (0x04, "MIDI Time Code"),
  (0x05, "Sample Dump Extensions"),
  (0x06, "General Information"),
  (0x07, "File Dump"),
  (0x08, "MIDI Tuning Standard"),
  (0x09, "General MIDI"),
  (0x7B, "End of File"),
  (0x7C, "Wait"),
  (0x7D, "Cancel"),
  (0x7E, "NAK"),
  (0x7F, "ACK")]

/-- MIDI_TIME_CODE_SUB_ID_2 from `src/main.py` (sub-ID #1 = 0x04). -/
def MIDI_TIME_CODE_SUB_ID_2 : List (Nat × String) := [
  (0x00, "Special"),
  (0x01, "Punch In Points"),
  (0x02, "Punch Out Points"),
  (0x03, "Delete Punch In Points"),
  (0x04, "Delete Punch Out Points"),
  (0x05, "Event Start Point"),
  (0x06, "Event Stop Point"),
  (0x07, "Event Start Points with additional info."),
  (0x08, "Event Stop Points with additional info."),
  (0x09, "Delete Event Start Point"),
  (0x0A, "Delete Event Stop Point"),
  (0x0B, "Cue Points"),
  (0x0C, "Cue Points with additional info."),
  (0x0D, "Delete Cue Point"),
  (0x0E, "Event Name in additional info.")]

/-- SAMPLE_DUMP_EXTENSIONS_SUB_ID_2 from `src/main.py` (sub-ID #1 = 0x05). -/
def SAMPLE_DUMP_EXTENSIONS_SUB_ID_2 : List (Nat × String) := [
  (0x01, "Multiple Loop Points"),
  (0x02, "Loop Points Request")]

/-- GENERAL_INFORMATION_SUB_ID_2 from `src/main.py` (sub-ID #1 = 0x06). -/
def GENERAL_INFORMATION_SUB_ID_2 : List (Nat × String) := [
  (0x01, "Identity Request"),
  (0x02, "Identity Reply")]

/-- FILE_DUMP_SUB_ID_2 from `src/main.py` (sub-ID #1 = 0x07). -/
def FILE_DUMP_SUB_ID_2 : List (Nat × String) := [
  (0x01, "Header"),
  (0x02, "Data Packet"),
  (0x03, "Request")]

/-- MIDI_TUNING_STANDARD_SUB_ID_2 from `src/main.py` (sub-ID #1 = 0x08). -/
def MIDI_TUNING_STANDARD_SUB_ID_2 : List (Nat × String) := [
  (0x00, "Bulk Dump Request"),
  (0x01, "Bulk Dump Reply")]

/-- GENERAL_MIDI_SUB_ID_2 from `src/main.py` (sub-ID #1 = 0x09). -/
def GENERAL_MIDI_SUB_ID_2 : List (Nat × String) := [
  (0x01, "General MIDI System On"),
  (0x02, "General MIDI System Off")]

/-- DEFINED_UNIVERSAL_SYSTEM_EXCLUSIVE_MESSAGES_REAL_TIME_SUB_ID_1
from `src/main.py` (table for manufacturer ID 0x7F). -/
def DEFINED_UNIVERSAL_SYSTEM_EXCLUSIVE_MESSAGES_REAL_TIME_SUB_ID_1 : List (Nat × String) := [
  (0x00, "Unused"),
  (0x01, "MIDI Time Code"),
  (0x02, "MIDI Show Control"),
  (0x03, "Notation Information"),
  (0x04, "Device Control"),
  (0x05, "Real Time MTC Cueing"),
  (0x06, "MIDI Machine Control Commands"),
  (0x07, "MIDI Machine Control Responses"),
  (0x08, "MIDI Tuning Standard")]

/-- REAL_TIME_MIDI_TIME_CODE_SUB_ID_2 from `src/main.py` (sub-ID #1 = 0x01). -/
def REAL_TIME_MIDI_TIME_CODE_SUB_ID_2 : List (Nat × String) := [
  (0x01, "Full Message"),
  (0x02, "User Bits")]

/-- REAL_TIME_SHOW_CONTROL_SUB_ID_2 from `src/main.py` (sub-ID #1 = 0x02). -/
def REAL_TIME_SHOW_CONTROL_SUB_ID_2 : List (Nat × String) := [
  (0x00, "MSC Extensions"),
  (0x01, "MSC Commands")]

/-- REAL_TIME_NOTATION_INFORMATION_SUB_ID_2 from `src/main.py` (sub-ID #1 = 0x03). -/
def REAL_TIME_NOTATION_INFORMATION_SUB_ID_2 : List (Nat × String) := [
  (0x01, "Bar Number"),
  (0x02, "Time Signature (Immediate)"),
  (0x03, "Time Signature (Delayed)")]

/-- REAL_TIME_DEVICE_CONTROL from `src/main.py` (sub-ID #1 = 0x04). -/
def REAL_TIME_DEVICE_CONTROL : List (Nat × String) := [
  (0x01, "Master Volume"),
  (0x02, "Master Balance")]

/-- REAL_TIME_MTC_CUEING from `src/main.py` (sub-ID #1 = 0x05). -/
def REAL_TIME_MTC_CUEING : List (Nat × String) := [
  (0x00, "Special"),
  (0x01, "Punch In Points"),
  (0x02, "Punch Out Points"),
  (0x03, "(Reserved)"),
  (0x04, "(Reserved)"),
  (0x05, "Event Start Point"),
  (0x06, "Event Stop Point"),
  (0x07, "Event Start Points with additional info."),
  (0x08, "Event Stop Points with additional info."),
  (0x09, "(Reserved)"),
  (0x0A, "(Reserved)"),
  (0x0B, "Cue Points"),
  (0x0C, "Cue Points with additional info."),
  (0x0D, "(Reserved)"),
  (0x0E, "Event Name in additional info.")]

/-- REAL_TIME_MIDI_MACHINE_CONTROL_COMMANDS from `src/main.py` (sub-ID #1 = 0x06). -/
def REAL_TIME_MIDI_MACHINE_CONTROL_COMMANDS : List (Nat × String) := [
  (0x00, "MMC Commands")]

/-- REAL_TIME_MIDI_MACHINE_CONTROL_RESPONSES from `src/main.py` (sub-ID #1 = 0x07). -/
def REAL_TIME_MIDI_MACHINE_CONTROL_RESPONSES : List (Nat × String) := [
  (0x00, "MMC Responses")]

/-- REAL_TIME_MIDI_TUNING_STANDARD from `src/main.py` (sub-ID #1 = 0x08). -/
def REAL_TIME_MIDI_TUNING_STANDARD : List (Nat × String) := [
  (0x02, "Note Change")]

/-- Modelled from the spec: `midi.constants.NON_REAL_TIME_SUB_ID_2_FROM_1`,
referenced by `src/gui/windows/probe.py` but defined in the module
`midi/constants.py` which is missing from `src/`.  Per the spec, a sub-ID
#1 that is a key of this dict carries a sub-ID #2; the member tables and
the sub-IDs that carry a SUB-ID #2 (0x04 to 0x09, marked by comments) are
taken from `src/main.py`. -/
def NON_REAL_TIME_SUB_ID_2_FROM_1 : List (Nat × List (Nat × String)) := [
  (0x04, MIDI_TIME_CODE_SUB_ID_2),
  (0x05, SAMPLE_DUMP_EXTENSIONS_SUB_ID_2),
  (0x06, GENERAL_INFORMATION_SUB_ID_2),
  (0x07, FILE_DUMP_SUB_ID_2),
  (0x08, MIDI_TUNING_STANDARD_SUB_ID_2),
  (0x09, GENERAL_MIDI_SUB_ID_2)]

/-- Modelled from the spec: `midi.constants.REAL_TIME_SUB_ID_2_FROM_1`,
referenced by `src/gui/windows/probe.py` but defined in the missing
module `midi/constants.py`.  Member tables from `src/main.py`; the
sub-IDs carrying a SUB-ID #2 (0x01 to 0x08) are marked there by comments. -/
def REAL_TIME_SUB_ID_2_FROM_1 : List (Nat × List (Nat × String)) := [
  (0x01, REAL_TIME_MIDI_TIME_CODE_SUB_ID_2),
  (0x02, REAL_TIME_SHOW_CONTROL_SUB_ID_2),
  (0x03, REAL_TIME_NOTATION_INFORMATION_SUB_ID_2),
  (0x04, REAL_TIME_DEVICE_CONTROL),
  (0x05, REAL_TIME_MTC_CUEING),
  (0x06, REAL_TIME_MIDI_MACHINE_CONTROL_COMMANDS),
  (0x07, REAL_TIME_MIDI_MACHINE_CONTROL_RESPONSES),
  (0x08, REAL_TIME_MIDI_TUNING_STANDARD)]

/-- Modelled from the spec: `midi.constants.SYSTEM_EXCLUSIVE_ID_GROUPS`,
defined in the missing module `midi/constants.py`.  The spec names 0x7E
the non-real-time universal ID and 0x7F the real-time universal ID;
every lower ID belongs to a manufacturer (0x7D is reserved for
non-commercial use).  The probe indexes this dict with brackets, so a
byte outside the table raises `KeyError`. -/
def SYSTEM_EXCLUSIVE_ID_GROUPS (b : Nat) : Except PyErr String :=
  if b ≤ 0x7C then Except.ok "Manufacturer"
  else if b = 0x7D then Except.ok "Non-Commercial"
  else if b = 0x7E then Except.ok "Universal Non-Real Time"
  else if b = 0x7F then Except.ok "Universal Real Time"
  else Except.error PyErr.keyError

/-- Modelled from the spec: `midi.constants.SYSTEM_EXCLUSIVE_ID_REGIONS`,
defined in the missing module `midi/constants.py`.  Region names follow
the group comments of SYSTEM_EXCLUSIVE_MANUFACTURER_ID in `src/main.py`:
American (one-byte 0x01 to 0x1F, three-byte region byte 0x00), European
(0x20 to 0x3F), Japanese (0x40 to 0x5F).  Accessed with `.get`, so a
byte outside the table yields `None`. -/
def SYSTEM_EXCLUSIVE_ID_REGIONS (b : Nat) : Option String :=
  if b ≤ 0x1F then some "American"
  else if b ≤ 0x3F then some "European"
  else if b ≤ 0x5F then some "Japanese"
  else none

/-!
System-exclusive decoding, following the sysex branch of
`_add_probe_data` in `src/gui/windows/probe.py` (lines 174-298).
-/

/-- Value held by the Python variable `syx_id`: a single int for 1-byte
IDs, or the tuple `data0[0:3]` for 3-byte IDs (lines 196-203). -/
inductive SyxId where
  | int (n : Nat)
  | tup (bytes : List Nat)
deriving Repr, DecidableEq

/-- Python `syx_id == n` for an int literal `n`: comparing the 3-byte
tuple with an int is simply `False`. -/
def SyxId.eqNat (i : SyxId) (n : Nat) : Bool :=
  match i with
  | SyxId.int m => m == n
  | SyxId.tup _ => false

/-- default_syx_label from `src/gui/windows/probe.py` line 216. -/
def default_syx_label : String := "Undefined"

/-- Dynamically typed value held by `syx_id_label` along the lookup chain
of lines 216-227: a string, the nested group dict (value of key 0x00), or
a region manufacturer table. -/
inductive SyxLabelVal where
  | str (s : String)
  | groupDict (g : List (Nat × List (Nat × String)))
  | regionDict (r : List (Nat × String))
deriving Repr, DecidableEq

/-- Python `SYSTEM_EXCLUSIVE_ID.get(k, default_syx_label)`
(lines 218 and 222). -/
def syxIdTopGet (k : Nat) : SyxLabelVal :=
  match dictGet SYSTEM_EXCLUSIVE_MANUFACTURER_ID k with
  | some (SyxIdEntry.name s) => SyxLabelVal.str s
  | some (SyxIdEntry.groups g) => SyxLabelVal.groupDict g
  | none => SyxLabelVal.str default_syx_label

/-- Python `syx_id_label != default_syx_label` (lines 224 and 226):
a dict value never equals the default string. -/
def SyxLabelVal.neDefault (v : SyxLabelVal) : Bool :=
  match v with
  | SyxLabelVal.str s => !(s == default_syx_label)
  | SyxLabelVal.groupDict _ => true
  | SyxLabelVal.regionDict _ => true

/-- Python `syx_id_label.get(k, default_syx_label)` on the dynamic value
(lines 225 and 227); calling `.get` on a str would raise
`AttributeError` (unreachable, because the chain starts at the group
dict held by key 0x00). -/
def SyxLabelVal.pyGet (v : SyxLabelVal) (k : Nat) : Except PyErr SyxLabelVal :=
  match v with
  | SyxLabelVal.str _ => Except.error PyErr.attributeError
  | SyxLabelVal.groupDict g =>
      Except.ok (match dictGet g k with
        | some r => SyxLabelVal.regionDict r
        | none => SyxLabelVal.str default_syx_label)
  | SyxLabelVal.regionDict r =>
      Except.ok (SyxLabelVal.str ((dictGet r k).getD default_syx_label))

/-- Result of the ID stage of the sysex decoder (lines 193-228): the ID
length, the dynamically typed ID, and its group, region and label. -/
structure SyxIdDecode where
  syx_id_len : Nat
  syx_id : SyxId
  syx_id_group : String
  syx_id_region : Option String
  syx_id_label : SyxLabelVal
deriving Repr, DecidableEq

/-- ID stage of the system-exclusive decoder
(`src/gui/windows/probe.py` lines 193-228, statement by statement):
extract the 1-byte or 3-byte ID, decode its group (bracket indexing, may
raise KeyError), its region (`.get`) and its label (the `.get` chain
with default "Undefined"). -/
def decodeSyxId (data0 : List Nat) : Except PyErr SyxIdDecode := do
  let b0 ← pyIndex data0 0
  let syx_id_group ← SYSTEM_EXCLUSIVE_ID_GROUPS b0
  let syx_id_len := if b0 = 0 then 3 else 1
  let syx_id := if b0 = 0 then SyxId.tup (data0.take 3) else SyxId.int b0
  let syx_id_region ←
    if b0 = 0 then do
      let b1 ← pyIndex (data0.take 3) 1
      pure (SYSTEM_EXCLUSIVE_ID_REGIONS b1)
    else
      pure (SYSTEM_EXCLUSIVE_ID_REGIONS b0)
  let syx_id_label ←
    if b0 = 0 then do
      let t := data0.take 3
      let i0 ← pyIndex t 0
      let l0 := syxIdTopGet i0
      let l1 ←
        if l0.neDefault then do
          let i1 ← pyIndex t 1
          l0.pyGet i1
        else pure l0
      let l2 ←
        if l1.neDefault then do
          let i2 ← pyIndex t 2
          l1.pyGet i2
        else pure l1
      pure l2
    else
      pure (syxIdTopGet b0)
  pure { syx_id_len := syx_id_len, syx_id := syx_id, syx_id_group := syx_id_group,
         syx_id_region := syx_id_region, syx_id_label := syx_id_label }

/-- Full system-exclusive decoding record, the values the probe feeds to
the GUI (lines 289-298). -/
structure SysExDecoding where
  syx_id_len : Nat
  syx_id : SyxId
  syx_id_type : String
  syx_id_label : SyxLabelVal
  syx_device_id : Nat
  syx_sub_id1 : Option Nat
  syx_sub_id1_label : String
  syx_sub_id2 : Option Nat
  syx_sub_id2_label : String
  syx_payload : List Nat
deriving Repr, DecidableEq

/-- System-exclusive decoder, following the sysex branch of
`_add_probe_data` (lines 174-298): ID stage, device ID, the universal
non-real-time (0x7E) and real-time (0x7F) sub-ID stages, the undecoded
payload tail and the ID type string.  On line 239 the source reads
`data[next_byte]` — the mido `Message` object, not the payload tuple
`data0` — which raises `TypeError`; `pyMsgSubscript` models exactly
that access. -/
def decodeSysEx (data0 : List Nat) : Except PyErr SysExDecoding := do
  let idd ← decodeSyxId data0
  let nb0 := idd.syx_id_len
  let syx_device_id ← pyIndex data0 nb0
  let r1 : Nat × Option Nat × String × Option Nat × String ←
    if idd.syx_id.eqNat 0x7E then do
      let nb := nb0 + 1
      let s1 ← pyMsgSubscript nb
      let s1l := (dictGet DEFINED_UNIVERSAL_SYSTEM_EXCLUSIVE_MESSAGES_NON_REAL_TIME_SUB_ID_1 s1).getD
        default_syx_label
      if (dictGet NON_REAL_TIME_SUB_ID_2_FROM_1 s1).isSome then do
        let nb2 := nb + 1
        let s2 ← pyIndex data0 nb2
        let s2l ←
          match dictGet NON_REAL_TIME_SUB_ID_2_FROM_1 s1 with
          | some t => Except.ok ((dictGet t s2).getD default_syx_label)
          | none => Except.error PyErr.attributeError
        pure (nb2, some s1, s1l, some s2, s2l)
      else
        pure (nb, some s1, s1l, none, "")
    else
      pure (nb0, none, "", none, "")
  let (nba, s1a, s1la, s2a, s2la) := r1
  let r2 : Nat × Option Nat × String × Option Nat × String ←
    if idd.syx_id.eqNat 0x7F then do
      let nb := nba + 1
      let s1 ← pyIndex data0 nb
      let s1l := (dictGet DEFINED_UNIVERSAL_SYSTEM_EXCLUSIVE_MESSAGES_REAL_TIME_SUB_ID_1 s1).getD
        default_syx_label
      if (dictGet REAL_TIME_SUB_ID_2_FROM_1 s1).isSome then do
        let nb2 := nb + 1
        let s2 ← pyIndex data0 nb2
        let s2l ←
          match dictGet REAL_TIME_SUB_ID_2_FROM_1 s1 with
          | some t => Except.ok ((dictGet t s2).getD default_syx_label)
          | none => Except.error PyErr.attributeError
        pure (nb2, some s1, s1l, some s2, s2l)
      else
        pure (nb, some s1, s1l, none, "")
    else
      pure (nba, s1a, s1la, s2a, s2la)
  let (nbb, s1b, s1lb, s2b, s2lb) := r2
  let nbf := nbb + 1
  let syx_payload := data0.drop nbf
  let syx_id_type :=
    match idd.syx_id_region with
    | some r => if r = "" then idd.syx_id_group ++ " ID" else r ++ " " ++ idd.syx_id_group ++ " ID"
    | none => idd.syx_id_group ++ " ID"
  pure { syx_id_len := idd.syx_id_len, syx_id := idd.syx_id, syx_id_type := syx_id_type,
         syx_id_label := idd.syx_id_label, syx_device_id := syx_device_id,
         syx_sub_id1 := s1b, syx_sub_id1_label := s1lb,
         syx_sub_id2 := s2b, syx_sub_id2_label := s2lb, syx_payload := syx_payload }

/-!
Delta timing (`src/gui/windows/probe.py` lines 83-91 and the module
globals of lines 33-34).
-/

/-- Value held by the Python variable `delta`: it is initialised to the
string "0.32" (line 84) and possibly replaced by a number. -/
inductive DeltaVal where
  | str (s : String)
  | num (q : ℚ)
deriving Repr, DecidableEq

/-- Module initialisation `previous_timestamp = START_TIME`
(`src/gui/windows/probe.py` line 34): the previous timestamp starts as
the process start time, not as `None`. -/
def initialPreviousTimestamp (startTime : ℚ) : Option ℚ := some startTime

/-- Delta computation of `_add_probe_data` (lines 83-91): `delta` starts
as the string "0.32"; if the device-reported `data.time` is not `None`
it becomes `data.time * US2MS`; otherwise, if `previous_timestamp` is
not `None`, it becomes `(timestamp - previous_timestamp) * US2MS`;
`previous_timestamp` is then set to `timestamp` unconditionally.
Returns the delta together with the new `previous_timestamp`. -/
def computeDelta (time : Option ℚ) (timestamp : ℚ) (previous_timestamp : Option ℚ) :
    DeltaVal × ℚ :=
  let delta := DeltaVal.str "0.32"
  let delta :=
    match time with
    | some t => DeltaVal.num (t * US2MS)
    | none =>
      match previous_timestamp with
      | some p => DeltaVal.num ((timestamp - p) * US2MS)
      | none => delta
  (delta, timestamp)

/-!
Blink state (`_mon_blink`, lines 335-348, and `update_blink_status`,
lines 963-1013).  One monitor cell is a theme flag (red or unthemed)
together with its `mon_<indicator>_active_until` value.
-/

/-- One monitor cell: whether its theme is currently the red highlight,
and its `active_until` value registry entry (seconds relative to
START_TIME; value registry default 0). -/
structure MonCell where
  red : Bool
  active_until : ℚ
deriving Repr, DecidableEq

/-- Effect of `_mon_blink` (lines 335-348) on the cell of the blinked
indicator: `active_until` becomes `now + delay` and the item theme is
bound to red. -/
def monBlink (now delay : ℚ) (_c : MonCell) : MonCell :=
  { red := true, active_until := now + delay }

/-- Effect of one `update_blink_status` pass (lines 963-1013) on a cell:
when `active_until < now` the theme is unbound; otherwise the cell is
untouched. -/
def updateBlinkStatus (now : ℚ) (c : MonCell) : MonCell :=
  if c.active_until < now then { c with red := false } else c

/-- Modelled from the spec: the contract of the Activity Tracker section,
`isActive(category, now) = activeUntil[category] > now`, written from
the words of the spec for comparison with the behaviour of
`update_blink_status`. -/
def isActiveSpec (activeUntil now : ℚ) : Bool :=
  activeUntil > now

/-!
End-of-exclusive monitor slots: `_mon_blink` (lines 341-346) binds both
the system-common and the system-exclusive EOX buttons when the
indicator is `end_of_exclusive`; `update_blink_status` (lines 998-1000)
clears both from the single shared `mon_end_of_exclusive_active_until`;
`_update_eox_category` (lines 378-383) only shows one and hides the
other.
-/

/-- State of the two end-of-exclusive monitor slots: the shared
`active_until`, each slot theme, each slot visibility, and the
`eox_category` setting that selects which slot is displayed. -/
structure EoxState where
  active_until : ℚ
  commonRed : Bool
  syxRed : Bool
  commonShown : Bool
  syxShown : Bool
  eox_category : String
deriving Repr, DecidableEq

/-- Effect of `_mon_blink("end_of_exclusive")` (lines 335-346): the
shared `active_until` becomes `now + delay` and BOTH EOX buttons are
bound to the red theme; the category setting and visibilities are not
consulted. -/
def monBlinkEox (now delay : ℚ) (s : EoxState) : EoxState :=
  { s with active_until := now + delay, commonRed := true, syxRed := true }

/-- Effect of one `update_blink_status` pass on the EOX slots
(lines 998-1000): when the shared `active_until < now`, BOTH buttons are
unbound together. -/
def updateBlinkEox (now : ℚ) (s : EoxState) : EoxState :=
  if s.active_until < now then { s with commonRed := false, syxRed := false } else s

/-- Effect of `_update_eox_category` (lines 378-383): compare the
`eox_category` setting with the first (system-common) choice and
show/hide the two slots accordingly; themes and `active_until` are not
touched. -/
def updateEoxCategory (firstChoice : String) (s : EoxState) : EoxState :=
  if s.eox_category = firstChoice then
    { s with syxShown := false, commonShown := true }
  else
    { s with commonShown := false, syxShown := true }

/-!
Activity indicators marked by `_add_probe_data`
(`src/gui/windows/probe.py` lines 108-159): the status blink of the raw
type (line 109), the channel blinks (lines 119-128), the zero-velocity
note-off blink (lines 139-141) and the per-controller blink (line 159).
-/

/-- Argument passed to `_mon_blink`: the source passes either a string
(a type tag, "c", "s", "note_off", "cc_<n>") or an int (the
channel number). -/
inductive Indicator where
  | str (s : String)
  | num (n : Nat)
deriving Repr, DecidableEq

/-- Python `pat in s` (substring containment) on strings. -/
def strContains (pat s : String) : Bool :=
  s.toList.tails.any (fun t => pat.toList.isPrefixOf t)

/-- The `_mon_blink` calls made by `_add_probe_data` for one event, in
source order (lines 108-159): the raw `data.type` (line 109); "c" and
the channel number for channel-scoped events, else "s"
(lines 119-128); "note_off" for a note event whose velocity is
NOTE_OFF_VELOCITY while the zero-velocity option is on (lines 139-141);
"cc_<n>" for a control change (line 159). -/
def addProbeBlinks (ty : String) (channel : Option Nat) (velocity : Nat) (control : Nat)
    (zeroVelOpt : Bool) : List Indicator :=
  [Indicator.str ty]
  ++ (match channel with
      | some c => [Indicator.str "c", Indicator.num c]
      | none => [Indicator.str "s"])
  ++ (if strContains "note" ty then
        (if zeroVelOpt && (velocity == NOTE_OFF_VELOCITY) then [Indicator.str "note_off"] else [])
      else if ty == "control_change" then [Indicator.str ("cc_" ++ toString control)]
      else [])

/-- Keyboard action of the note branch (lines 142-148): `_note_on` is
called only for a note-on whose velocity is not aliased to note-off by
the zero-velocity option; otherwise `_note_off`; non-note types touch no
key. -/
inductive KeyAction where
  | keyOn (n : Nat)
  | keyOff (n : Nat)
  | noKey
deriving Repr, DecidableEq

/-- Keyboard effect of `_add_probe_data` for one event
(lines 139-148). -/
def keyboardAction (ty : String) (note : Nat) (velocity : Nat) (zeroVelOpt : Bool) : KeyAction :=
  if strContains "note" ty then
    (if strContains "on" ty && !(zeroVelOpt && (velocity == NOTE_OFF_VELOCITY)) then
      KeyAction.keyOn note
    else
      KeyAction.keyOff note)
  else
    KeyAction.noKey

/-- Modelled from the spec: `midi.mido2standard.get_status_by_type`,
defined in the missing module `midi/mido2standard.py`; the spec (status
classification step) maps the type tag to its base status byte per the
MIDI 1.0 tables of `src/main.py`. -/
def get_status_by_type (ty : String) : Nat :=
  if ty == "note_off" then 0x80
  else if ty == "note_on" then 0x90
  else if ty == "polytouch" then 0xA0
  else if ty == "control_change" then 0xB0
  else if ty == "program_change" then 0xC0
  else if ty == "aftertouch" then 0xD0
  else if ty == "pitchwheel" then 0xE0
  else if ty == "sysex" then 0xF0
  else if ty == "quarter_frame" then 0xF1
  else if ty == "songpos" then 0xF2
  else if ty == "song_select" then 0xF3
  else if ty == "tune_request" then 0xF6
  else if ty == "end_of_exclusive" then 0xF7
  else if ty == "clock" then 0xF8
  else if ty == "start" then 0xFA
  else if ty == "continue" then 0xFB
  else if ty == "stop" then 0xFC
  else if ty == "active_sensing" then 0xFE
  else if ty == "reset" then 0xFF
  else 0

/-- Modelled from the spec: the `STATUS_BYTES` lookup table of the
missing module `midi/constants.py`, mapping a status byte to its
human-readable name (channel voice names follow CHANNEL_VOICE_MESSAGES
of the MIDI 1.0 tables; system names follow SYSTEM_COMMON_MESSAGES,
SYSTEM_REAL_TIME_MESSAGES and SYSTEM_EXCLUSIVE_MESSAGES of
`src/main.py`). -/
def STATUS_BYTES : List (Nat × String) := [
  (0x80, "Note Off"),
  (0x90, "Note On"),
  (0xA0, "Polyphonic Key Pressure (Aftertouch)"),
  (0xB0, "Control Change"),
  (0xC0, "Program Change"),
  (0xD0, "Channel Pressure (Aftertouch)"),
  (0xE0, "Pitch Bend Change"),
  (0xF0, "System Exclusive"),
  (0xF1, "MIDI Time Code Quarter Frame"),
  (0xF2, "Song Position Pointer"),
  (0xF3, "Song Select"),
  (0xF6, "Tune Request"),
  (0xF7, "EOX: \x22End of System Exclusive\x22 flag"),
  (0xF8, "Timing Clock"),
  (0xFA, "Start"),
  (0xFB, "Continue"),
  (0xFC, "Stop"),
  (0xFE, "Active Sensing"),
  (0xFF, "System Reset")]

/-- Status label of the decoded event (lines 110-111):
`STATUS_BYTES[get_status_by_type(data.type)]` — it is computed from the
type tag alone; neither the velocity nor the zero-velocity option enter
it. -/
def statLabel (ty : String) : String :=
  (dictGet STATUS_BYTES (get_status_by_type ty)).getD ""

/-!
Channel label (lines 119-130).
-/

/-- Value held by the Python variable `chan_label`: an int for
channel-scoped events, the string "Global" otherwise. -/
inductive ChanLabel where
  | num (n : Nat)
  | str (s : String)
deriving Repr, DecidableEq

/-- Channel resolution of `_add_probe_data` (lines 119-128): events
carrying a channel get the human-readable `channel + 1`; events without
a channel attribute get "Global". -/
def chanLabel (channel : Option Nat) : ChanLabel :=
  match channel with
  | some c => ChanLabel.num (c + 1)
  | none => ChanLabel.str "Global"

/-!
History table (`_add_probe_data` lines 57-70, `_clear_probe_data_table`
lines 43-45, `_init_details_table_data` lines 37-40, and the
`probe_data_counter` global of line 33).  Rows are identified by their
numeric label suffix (`probe_data_<k>`); the placeholder row created for
reverse scrolling is row 0.
-/

/-- Insert `new` immediately before the first occurrence of `target`
(the Dear PyGui `before=` placement used on line 70); when the target
row is absent the row is appended at the end (that situation is never
reached in the append sequences considered here). -/
def insertBefore (l : List Nat) (target new : Nat) : List Nat :=
  match l with
  | [] => [new]
  | x :: xs => if x = target then new :: x :: xs else x :: insertBefore xs target new

/-- State of the history table: the `probe_data_counter` global and the
displayed rows, top to bottom. -/
structure ProbeTable where
  counter : Nat
  rows : List Nat
deriving Repr, DecidableEq

/-- Initial state: counter 0 (line 33) and the placeholder row
`probe_data_0` created by `_init_details_table_data` (lines 37-40). -/
def initialTable : ProbeTable :=
  { counter := 0, rows := [0] }

/-- Row bookkeeping of `_add_probe_data` (lines 63-70):
`previous_data = probe_data_counter`, the counter is incremented, and
the new row `probe_data_<counter>` is created before
`probe_data_<previous_data>`. -/
def addProbeRow (s : ProbeTable) : ProbeTable :=
  let previous_data := s.counter
  let counter := s.counter + 1
  { counter := counter, rows := insertBefore s.rows previous_data counter }

/-- Effect of `_clear_probe_data_table` (lines 43-45): delete every row
of the table, then recreate the placeholder row; the counter global is
not touched. -/
def clearProbeTable (s : ProbeTable) : ProbeTable :=
  { s with rows := [0] }

/-- Iterated append: the table after `k` consecutive events. -/
def addProbeRows : Nat → ProbeTable → ProbeTable
  | 0, s => s
  | k + 1, s => addProbeRows k (addProbeRow s)

/-- One user-visible operation on the history table. -/
inductive TableOp where
  | add
  | clear
deriving Repr, DecidableEq

/-- Run a sequence of operations from a state. -/
def runTableOps : List TableOp → ProbeTable → ProbeTable
  | [], s => s
  | TableOp.add :: ops, s => runTableOps ops (addProbeRow s)
  | TableOp.clear :: ops, s => runTableOps ops (clearProbeTable s)

/-- The record ids assigned by the appends of an operation sequence run
from a state: each append labels its new row with the post-increment
counter (`probe_data_<counter + 1>`, lines 64-70). -/
def assignedIds : List TableOp → ProbeTable → List Nat
  | [], _ => []
  | TableOp.add :: ops, s => (addProbeRow s).counter :: assignedIds ops (addProbeRow s)
  | TableOp.clear :: ops, s => assignedIds ops (clearProbeTable s)

/-- The data rows the table presents, excluding the placeholder row 0. -/
def presentedData (s : ProbeTable) : List Nat :=
  s.rows.filter (fun r => r ≠ 0)

/-- Status label as the probe computes it (lines 108-111): it is derived
from `data.type` alone, before and independently of the note-velocity
handling, so the velocity and the zero-velocity option never enter it. -/
def decodedStatus (ty : String) (_velocity : Nat) (_zeroVelOpt : Bool) : String :=
  statLabel ty

/-- The conjunction established for claim C9, over an arbitrary EOX
state, times and category choice. -/
def C9Prop (s : EoxState) (now delay t : ℚ) (first : String) : Prop :=
  (monBlinkEox now delay s).commonRed = true ∧
  (monBlinkEox now delay s).syxRed = true ∧
  (monBlinkEox now delay s).active_until = now + delay ∧
  (monBlinkEox now delay s).eox_category = s.eox_category ∧
  (monBlinkEox now delay s).commonShown = s.commonShown ∧
  (monBlinkEox now delay s).syxShown = s.syxShown ∧
  (updateBlinkEox t s).commonRed = (updateBlinkEox t s).syxRed ∧
  (updateEoxCategory first s).commonRed = s.commonRed ∧
  (updateEoxCategory first s).syxRed = s.syxRed ∧
  (updateEoxCategory first s).active_until = s.active_until

/-- Outcome established for claim C2 about the manufacturer-ID stage on
the payload `b0 :: rest`: the decoder reads byte 0; when it is 0x00 the
ID is the 3-byte tuple of bytes 0-2, otherwise the single byte 0; and
the resolved label is exactly one of a 1-byte table entry, a nested
3-byte (group, region) table entry, or the literal "Undefined" whenever
the lookup chain fails at any level. -/
def C2Prop (b0 : Nat) (rest : List Nat) : Prop :=
  ∃ d : SyxIdDecode, decodeSyxId (b0 :: rest) = Except.ok d ∧
    ((¬b0 = 0 ∧ d.syx_id_len = 1 ∧ d.syx_id = SyxId.int b0 ∧
        ((∃ s, dictGet SYSTEM_EXCLUSIVE_MANUFACTURER_ID b0 = some (SyxIdEntry.name s) ∧
            d.syx_id_label = SyxLabelVal.str s ∧ ¬s = default_syx_label) ∨
         (dictGet SYSTEM_EXCLUSIVE_MANUFACTURER_ID b0 = none ∧
            d.syx_id_label = SyxLabelVal.str default_syx_label))) ∨
     (b0 = 0 ∧ d.syx_id_len = 3 ∧ d.syx_id = SyxId.tup (b0 :: rest.take 2) ∧
        (∃ b1 b2 rest2, rest = b1 :: b2 :: rest2 ∧
          ((∃ reg s,
              dictGet [(0x00, AMERICAN_GROUP_IDS), (0x20, EUROPEAN_GROUP_IDS)] b1 = some reg ∧
              dictGet reg b2 = some s ∧
              d.syx_id_label = SyxLabelVal.str s ∧ ¬s = default_syx_label) ∨
           ((dictGet [(0x00, AMERICAN_GROUP_IDS), (0x20, EUROPEAN_GROUP_IDS)] b1 = none ∨
             (∃ reg,
               dictGet [(0x00, AMERICAN_GROUP_IDS), (0x20, EUROPEAN_GROUP_IDS)] b1 = some reg ∧
               dictGet reg b2 = none)) ∧
            d.syx_id_label = SyxLabelVal.str default_syx_label)))))

/-!
Helper lemmas.
-/

/-!
Sanity examples evaluating the embedding on concrete inputs.
-/

example : dictGet SYSTEM_EXCLUSIVE_MANUFACTURER_ID 0x41 = some (SyxIdEntry.name "Roland") := by decide
example : dictGet EUROPEAN_GROUP_IDS 0x29 = some "Novation EMS" := by decide
example : decodeSysEx [0x41] = Except.error PyErr.indexError := by decide
example : decodeSysEx [0x7E, 0x00, 0x06, 0x01] = Except.error PyErr.typeError := by decide
example : (decodeSysEx [0x7F, 0x00, 0x01, 0x01]).map
    (fun d => (d.syx_sub_id1_label, d.syx_sub_id2_label)) =
    Except.ok ("MIDI Time Code", "Full Message") := by decide
example : (decodeSysEx [0x00, 0x20, 0x29, 0x00]).map (fun d => d.syx_id_label) =
    Except.ok (SyxLabelVal.str "Novation EMS") := by decide
example : (decodeSysEx [0x41, 0x10, 0x42]).map
    (fun d => (d.syx_id_label, d.syx_device_id, d.syx_payload)) =
    Except.ok (SyxLabelVal.str "Roland", 0x10, [0x42]) := by decide
example : presentedData (addProbeRows 3 initialTable) = [3, 2, 1] := by decide
example : computeDelta none 2 (initialPreviousTimestamp 0) = (DeltaVal.num 2000, 2) := by
  simp [computeDelta, initialPreviousTimestamp, US2MS]
  norm_num

theorem dictGet_mem {l : List (Nat × α)} {k : Nat} {v : α}
    (h : dictGet l k = some v) : (k, v) ∈ l := by
  induction l with
  | nil => simp [dictGet] at h
  | cons p rest ih =>
    obtain ⟨k0, v0⟩ := p
    by_cases hk : k = k0
    · simp [dictGet, hk] at h
      simp [hk, h]
    · simp [dictGet, hk] at h
      exact List.mem_cons_of_mem _ (ih h)

theorem groups_ok_of_le {b : Nat} (hb : b ≤ 0x7F) :
    ∃ g, SYSTEM_EXCLUSIVE_ID_GROUPS b = Except.ok g := by
  unfold SYSTEM_EXCLUSIVE_ID_GROUPS
  split_ifs with h1 h2 h3 h4
  · exact ⟨_, rfl⟩
  · exact ⟨_, rfl⟩
  · exact ⟨_, rfl⟩
  · exact ⟨_, rfl⟩
  · omega

theorem addProbeRows_from (k c : Nat) (tail : List Nat) :
    addProbeRows k { counter := c, rows := c :: tail } =
      { counter := c + k, rows := (List.range' (c + 1) k).reverse ++ c :: tail } := by
  induction k generalizing c tail with
  | zero => simp [addProbeRows]
  | succ k ih =>
    have hstep : addProbeRow { counter := c, rows := c :: tail } =
        { counter := c + 1, rows := (c + 1) :: c :: tail } := by
      simp [addProbeRow, insertBefore]
    rw [show addProbeRows (k + 1) { counter := c, rows := c :: tail } =
        addProbeRows k (addProbeRow { counter := c, rows := c :: tail }) from rfl, hstep,
      ih (c + 1) (c :: tail)]
    have hr : List.range' (c + 1) (k + 1) = (c + 1) :: List.range' (c + 2) k := List.range'_succ ..
    simp [hr, List.reverse_cons, List.append_assoc]
    omega

theorem range'_pos_ne_zero {k x : Nat} (hx : x ∈ List.range' 1 k) : x ≠ 0 := by
  have := List.mem_range'_1.mp hx
  omega

/-!
Claim theorems.
-/

/-- C3: the claim that decoding never raises on short sysex payloads is
violated by the code: for the sysex payload `(0x41,)` — a 1-byte ID with
no device-ID byte — the decoder reads `data0[1]` for the device ID and
raises `IndexError`. -/
theorem C3_short_sysex_payload_raises :
    decodeSysEx [0x41] = Except.error PyErr.indexError := by decide

/-- C5: the claim that a 0x7E universal sysex decodes its sub-IDs is
violated by the code: for the payload `(0x7E, 0x00, 0x06, 0x01)` of the
spec example, the non-real-time branch reads the sub-ID #1 byte from the
mido `Message` object (`data[next_byte]`, line 239) instead of the
payload tuple `data0`, raising `TypeError` before any sub-ID label is
resolved. -/
theorem C5_universal_nonrealtime_subid_raises :
    decodeSysEx [0x7E, 0x00, 0x06, 0x01] = Except.error PyErr.typeError := by decide

/-- The parallel real-time branch (manufacturer ID 0x7F, lines 252-265)
correctly reads its sub-ID bytes from `data0` and resolves both labels,
which shows line 239 is a slip rather than a design choice. -/
theorem realtime_branch_resolves_sub_ids :
    (decodeSysEx [0x7F, 0x00, 0x01, 0x01]).map
      (fun d => (d.syx_sub_id1, d.syx_sub_id1_label, d.syx_sub_id2, d.syx_sub_id2_label)) =
    Except.ok (some 0x01, "MIDI Time Code", some 0x01, "Full Message") := by decide

/-- C7: `chan_label` is "Global" exactly when the event carries no
channel attribute, and a channel-scoped event with channel `c` gets the
1-based label `c + 1`, which is never "Global". -/
theorem C7_channel_label_global_iff (ch : Option Nat) (c : Nat) :
    (chanLabel ch = ChanLabel.str "Global" ↔ ch = none) ∧
    chanLabel (some c) = ChanLabel.num (c + 1) ∧
    chanLabel (some c) ≠ ChanLabel.str "Global" := by
  refine ⟨?_, rfl, by simp [chanLabel]⟩
  cases ch <;> simp [chanLabel]

/-- C1 as stated is false on the code: processing a note-on with
velocity 0 while the zero-velocity option is on marks the "note_off"
category, but the status blink of line 109 passes the raw `data.type`,
so the "note_on" category is marked active as well. -/
theorem C1_zero_velocity_marks_note_on_too :
    Indicator.str "note_off" ∈ addProbeBlinks "note_on" (some 0) 0 0 true ∧
    Indicator.str "note_on" ∈ addProbeBlinks "note_on" (some 0) 0 0 true := by decide

/-- C1 amended: for a note-on with velocity 0 processed while the
zero-velocity option is on, the "note_off" category is marked active and
the keyboard treats the note as released, but the "note_on" category is
ALSO marked active (the status blink uses the raw type tag); the decoded
status label is unaffected by the velocity and the option. -/
theorem C1_zero_velocity_note_on_activity (ch : Option Nat) (note ctl v : Nat) (o : Bool) :
    Indicator.str "note_off" ∈ addProbeBlinks "note_on" ch 0 ctl true ∧
    Indicator.str "note_on" ∈ addProbeBlinks "note_on" ch 0 ctl true ∧
    keyboardAction "note_on" note 0 true = KeyAction.keyOff note ∧
    decodedStatus "note_on" 0 true = decodedStatus "note_on" v o := by
  have h1 : strContains "note" "note_on" = true := by decide
  refine ⟨?_, ?_, rfl, rfl⟩ <;> cases ch <;>
    simp [addProbeBlinks, h1, NOTE_OFF_VELOCITY]

/-- C4 as stated is false on the code: the very first event of a session
with no device-reported delta does not yield 0.32; because
`previous_timestamp` is initialised to START_TIME (line 34), the first
event (here: 2 seconds after a session started at time 0) yields
`(timestamp - START_TIME) * 1000 = 2000`, which is neither the string
"0.32" nor the number 0.32. -/
theorem C4_first_event_delta_not_032 :
    computeDelta none 2 (initialPreviousTimestamp 0) = (DeltaVal.num 2000, 2) ∧
    DeltaVal.num 2000 ≠ DeltaVal.str "0.32" ∧
    DeltaVal.num 2000 ≠ DeltaVal.num (32 / 100) := by
  refine ⟨?_, by simp, by simp; norm_num⟩
  simp [computeDelta, initialPreviousTimestamp, US2MS]
  norm_num

/-- C4 amended: `delta` is the device-reported delta times 1000 when
that delta is non-null, otherwise `(timestamp - previous_timestamp) *
1000`; `previous_timestamp` is updated to the current timestamp
unconditionally; and since `previous_timestamp` is initialised to
START_TIME rather than to null, an event processed in the initial state
can never produce the "0.32" default. -/
theorem C4_delta_policy (t ts p : ℚ) (time prev : Option ℚ) :
    computeDelta (some t) ts prev = (DeltaVal.num (t * US2MS), ts) ∧
    computeDelta none ts (some p) = (DeltaVal.num ((ts - p) * US2MS), ts) ∧
    (computeDelta time ts prev).2 = ts ∧
    (computeDelta time ts (initialPreviousTimestamp p)).1 ≠ DeltaVal.str "0.32" := by
  refine ⟨rfl, rfl, ?_, ?_⟩
  · cases time <;> cases prev <;> rfl
  · cases time <;> simp [computeDelta, initialPreviousTimestamp]

/-- C6 as stated is false on the code: `update_blink_status` only clears
a cell when `active_until < now`, so at the instant `now =
active_until` (here both 1) the highlight is still on, while the spec
contract `activeUntil > now` says the category is inactive there. -/
theorem C6_active_at_expiry_boundary :
    (updateBlinkStatus 1 { red := true, active_until := 1 }).red = true ∧
    isActiveSpec 1 1 = false := by
  constructor
  · simp [updateBlinkStatus]
  · simp [isActiveSpec]

/-- C6 amended: a highlighted cell stays highlighted through an
`update_blink_status` pass at time `now` exactly when `now ≤
active_until` — the boundary is inclusive at expiry, the highlight going
off only once `now` strictly exceeds `active_until`. -/
theorem C6_highlight_iff_le (c : MonCell) (now : ℚ) (h : c.red = true) :
    (updateBlinkStatus now c).red = true ↔ now ≤ c.active_until := by
  unfold updateBlinkStatus
  split_ifs with hlt
  · simp only [Bool.false_eq_true, false_iff, not_le]
    exact hlt
  · simp only [h, true_iff]
    exact le_of_not_lt hlt

/-- Witness for the amended C6 theorem at a concrete cell. -/
theorem C6_highlight_iff_le_witness :
    MonCell.red { red := true, active_until := 2 } = true ∧
    ((updateBlinkStatus 1 { red := true, active_until := 2 }).red = true ↔ (1 : ℚ) ≤ 2) :=
  ⟨rfl, C6_highlight_iff_le { red := true, active_until := 2 } 1 rfl⟩

theorem assignedIds_eq_range' (ops : List TableOp) (s : ProbeTable) :
    assignedIds ops s = List.range' (s.counter + 1) (ops.count TableOp.add) := by
  induction ops generalizing s with
  | nil => simp [assignedIds]
  | cons op ops ih =>
    cases op with
    | add =>
      rw [show assignedIds (TableOp.add :: ops) s =
          (addProbeRow s).counter :: assignedIds ops (addProbeRow s) from rfl,
        ih (addProbeRow s)]
      have hc : (addProbeRow s).counter = s.counter + 1 := rfl
      rw [hc, List.count_cons_self, List.range'_succ]
    | clear =>
      rw [show assignedIds (TableOp.clear :: ops) s =
          assignedIds ops (clearProbeTable s) from rfl, ih (clearProbeTable s)]
      have hc : (clearProbeTable s).counter = s.counter := rfl
      rw [hc, List.count_cons_of_ne]
      simp

theorem range'_pairwise_lt (s n : Nat) : (List.range' s n).Pairwise (· < ·) := by
  induction n generalizing s with
  | zero => simp
  | succ n ih =>
    rw [List.range'_succ]
    refine List.Pairwise.cons ?_ (ih (s + 1))
    intro x hx
    have := List.mem_range'_1.mp hx
    omega

/-- C8 as stated is false on the code: after two appends the history
table presents the data rows as `[2, 1]` — the second event above the
first — not in arrival order `[1, 2]`, because each new row is created
`before` (above) the previously inserted row (line 70). -/
theorem C8_presented_order_is_reversed :
    presentedData (addProbeRows 2 initialTable) = [2, 1] ∧
    ([2, 1] : List Nat) ≠ [1, 2] := by decide

/-- C8 amended: the history table presents the appended events in
reverse insertion order — after `k` appends the data rows read
`k, k-1, ..., 1` top to bottom, each append inserting its row before
the previous one — and `_clear_probe_data_table` unconditionally leaves
only the placeholder row. -/
theorem C8_reverse_insertion_order (k : Nat) (s : ProbeTable) :
    presentedData (addProbeRows k initialTable) = (List.range' 1 k).reverse ∧
    (clearProbeTable s).rows = [0] := by
  refine ⟨?_, rfl⟩
  rw [show initialTable = { counter := 0, rows := 0 :: [] } from rfl,
    addProbeRows_from k 0 []]
  simp only [presentedData, List.filter_append, List.filter_reverse]
  have h1 : (List.range' 1 k).filter (fun r => decide (r ≠ 0)) = List.range' 1 k := by
    apply List.filter_eq_self.mpr
    intro x hx
    simp [range'_pos_ne_zero hx]
  rw [show (0 + 1) = 1 from rfl, h1]
  simp

/-- C9: processing an end-of-exclusive event marks BOTH EOX monitor
slots (system-common and system-exclusive) red with one shared
active-until, whatever the `eox_category` setting and visibilities are;
an `update_blink_status` pass leaves the two slots in the same theme
state (they clear together at expiry); `_update_eox_category` changes
only the visibilities, never the themes or the shared active-until. -/
theorem C9_eox_marks_both_slots (s : EoxState) (now delay t : ℚ) (first : String)
    (h : s.commonRed = s.syxRed) : C9Prop s now delay t first := by
  refine ⟨rfl, rfl, rfl, rfl, rfl, rfl, ?_, ?_, ?_, ?_⟩
  · unfold updateBlinkEox
    split_ifs <;> simp [h]
  · unfold updateEoxCategory
    split_ifs <;> rfl
  · unfold updateEoxCategory
    split_ifs <;> rfl
  · unfold updateEoxCategory
    split_ifs <;> rfl

/-- Witness for the C9 theorem at a concrete state. -/
theorem C9_eox_marks_both_slots_witness :
    ({ active_until := 0, commonRed := false, syxRed := false, commonShown := true,
       syxShown := false, eox_category := "System Common Message" } : EoxState).commonRed =
    ({ active_until := 0, commonRed := false, syxRed := false, commonShown := true,
       syxShown := false, eox_category := "System Common Message" } : EoxState).syxRed ∧
    C9Prop { active_until := 0, commonRed := false, syxRed := false, commonShown := true,
             syxShown := false, eox_category := "System Common Message" } 1 2 3
      "System Exclusive Message" :=
  ⟨rfl, C9_eox_marks_both_slots _ 1 2 3 "System Exclusive Message" rfl⟩

/-- C10: over any sequence of appends and clears starting from the
initial table, the ids assigned to appended records are exactly
1, 2, 3, ... in order (each append uses `probe_data_counter + 1` and
increments the counter by exactly one), hence strictly increasing and
never reused; `_clear_probe_data_table` does not touch the counter. -/
theorem C10_record_ids_strictly_increasing (ops : List TableOp) (s : ProbeTable) :
    assignedIds ops initialTable = List.range' 1 (ops.count TableOp.add) ∧
    (assignedIds ops initialTable).Pairwise (· < ·) ∧
    (assignedIds ops initialTable).Nodup ∧
    (addProbeRow s).counter = s.counter + 1 ∧
    (clearProbeTable s).counter = s.counter := by
  have h := assignedIds_eq_range' ops initialTable
  have hp : (assignedIds ops initialTable).Pairwise (· < ·) := by
    rw [h]
    exact range'_pairwise_lt _ _
  exact ⟨h, hp, hp.imp (fun hlt => Nat.ne_of_lt hlt), rfl, rfl⟩

/-!
Lemmas about the manufacturer-ID tables and the ID stage, for claim C2.
-/

theorem syx_top_name_ne_default {k : Nat} {s : String}
    (h : dictGet SYSTEM_EXCLUSIVE_MANUFACTURER_ID k = some (SyxIdEntry.name s)) :
    s ≠ default_syx_label := by
  have hall : SYSTEM_EXCLUSIVE_MANUFACTURER_ID.all
      (fun p => match p.2 with
        | SyxIdEntry.name s => !(s == default_syx_label)
        | SyxIdEntry.groups _ => true) = true := by decide
  rw [List.all_eq_true] at hall
  simpa using hall _ (dictGet_mem h)

theorem syx_top_groups_only_at_zero {k : Nat} {g : List (Nat × List (Nat × String))}
    (h : dictGet SYSTEM_EXCLUSIVE_MANUFACTURER_ID k = some (SyxIdEntry.groups g)) :
    k = 0 := by
  have hall : SYSTEM_EXCLUSIVE_MANUFACTURER_ID.all
      (fun p => (p.1 == 0) || match p.2 with
        | SyxIdEntry.name _ => true
        | SyxIdEntry.groups _ => false) = true := by decide
  rw [List.all_eq_true] at hall
  simpa using hall _ (dictGet_mem h)

theorem region_entry_ne_default {b1 k : Nat} {reg : List (Nat × String)} {s : String}
    (hreg : dictGet [(0x00, AMERICAN_GROUP_IDS), (0x20, EUROPEAN_GROUP_IDS)] b1 = some reg)
    (h : dictGet reg k = some s) : s ≠ default_syx_label := by
  have hA : AMERICAN_GROUP_IDS.all (fun p => !(p.2 == default_syx_label)) = true := by decide
  have hE : EUROPEAN_GROUP_IDS.all (fun p => !(p.2 == default_syx_label)) = true := by decide
  rw [List.all_eq_true] at hA hE
  simp only [dictGet] at hreg
  split_ifs at hreg with h1 h2
  · cases hreg
    simpa using hA _ (dictGet_mem h)
  · cases hreg
    simpa using hE _ (dictGet_mem h)

theorem decodeSyxId_one_byte (b0 : Nat) (rest : List Nat) (h0 : ¬b0 = 0) (g : String)
    (hg : SYSTEM_EXCLUSIVE_ID_GROUPS b0 = Except.ok g) :
    decodeSyxId (b0 :: rest) = Except.ok
      { syx_id_len := 1, syx_id := SyxId.int b0, syx_id_group := g,
        syx_id_region := SYSTEM_EXCLUSIVE_ID_REGIONS b0,
        syx_id_label := syxIdTopGet b0 } := by
  simp [decodeSyxId, pyIndex, hg, h0, Bind.bind, Except.bind, Pure.pure, Except.pure]

theorem decodeSyxId_three_byte (b1 b2 : Nat) (rest : List Nat) :
    decodeSyxId (0 :: b1 :: b2 :: rest) = Except.ok
      { syx_id_len := 3, syx_id := SyxId.tup [0, b1, b2],
        syx_id_group := "Manufacturer",
        syx_id_region := SYSTEM_EXCLUSIVE_ID_REGIONS b1,
        syx_id_label :=
          match dictGet [(0x00, AMERICAN_GROUP_IDS), (0x20, EUROPEAN_GROUP_IDS)] b1 with
          | some reg => SyxLabelVal.str ((dictGet reg b2).getD default_syx_label)
          | none => SyxLabelVal.str default_syx_label } := by
  have htop : syxIdTopGet 0 =
      SyxLabelVal.groupDict [(0x00, AMERICAN_GROUP_IDS), (0x20, EUROPEAN_GROUP_IDS)] := rfl
  rcases hreg : dictGet [(0x00, AMERICAN_GROUP_IDS), (0x20, EUROPEAN_GROUP_IDS)] b1
    with _ | reg <;>
    simp [decodeSyxId, pyIndex, htop, SyxLabelVal.neDefault, SyxLabelVal.pyGet,
      SYSTEM_EXCLUSIVE_ID_GROUPS, hreg, default_syx_label, Bind.bind, Except.bind,
      Pure.pure, Except.pure, List.take]

/-- C2: for every sysex payload whose first byte is a valid 7-bit ID
byte (and which is long enough to hold a 3-byte ID when byte 0 is 0x00),
the manufacturer-ID decode resolves to exactly one of: a 1-byte table
entry, a 3-byte group/region table entry, or the literal "Undefined"
when the composite lookup chain fails at any level. -/
theorem C2_manufacturer_id_trichotomy (b0 : Nat) (rest : List Nat)
    (hb : b0 ≤ 0x7F) (h3 : b0 = 0 → 2 ≤ rest.length) : C2Prop b0 rest := by
  by_cases h0 : b0 = 0
  · subst h0
    obtain ⟨b1, b2, rest2, rfl⟩ : ∃ b1 b2 rest2, rest = b1 :: b2 :: rest2 := by
      match rest, h3 rfl with
      | b1 :: b2 :: r, _ => exact ⟨b1, b2, r, rfl⟩
    refine ⟨_, decodeSyxId_three_byte b1 b2 rest2,
      Or.inr ⟨rfl, rfl, rfl, b1, b2, rest2, rfl, ?_⟩⟩
    rcases hreg : dictGet [(0x00, AMERICAN_GROUP_IDS), (0x20, EUROPEAN_GROUP_IDS)] b1
      with _ | reg
    · exact Or.inr ⟨Or.inl rfl, rfl⟩
    · rcases hs : dictGet reg b2 with _ | s
      · exact Or.inr ⟨Or.inr ⟨reg, rfl, hs⟩, by simp [hs]⟩
      · exact Or.inl ⟨reg, s, rfl, hs, by simp [hs], region_entry_ne_default hreg hs⟩
  · obtain ⟨g, hg⟩ := groups_ok_of_le hb
    refine ⟨_, decodeSyxId_one_byte b0 rest h0 g hg, Or.inl ⟨h0, rfl, rfl, ?_⟩⟩
    rcases ht : dictGet SYSTEM_EXCLUSIVE_MANUFACTURER_ID b0 with _ | e
    · exact Or.inr ⟨rfl, by simp [syxIdTopGet, ht]⟩
    · cases e with
      | name s =>
        exact Or.inl ⟨s, rfl, by simp [syxIdTopGet, ht], syx_top_name_ne_default ht⟩
      | groups g2 => exact absurd (syx_top_groups_only_at_zero ht) h0

/-- Witness for the C2 theorem at the concrete 1-byte payload
`(0x41, 0x10)` (a Roland message). -/
theorem C2_manufacturer_id_trichotomy_witness :
    ((0x41 : Nat) ≤ 0x7F ∧ ((0x41 : Nat) = 0 → 2 ≤ ([0x10] : List Nat).length)) ∧
    C2Prop 0x41 [0x10] :=
  ⟨⟨by decide, by decide⟩, C2_manufacturer_id_trichotomy 0x41 [0x10] (by decide) (by decide)⟩
